import Mathlib

/-!
Verification of the projekanda assessment portal (TypeScript/React).

Shallow embedding of the data model and of the orchestration logic found in
`src/lib/api.ts`, `TestDisplay.tsx` (the main test flow), `Dashboard.tsx`
(test acquisition) and `ADOFTestDisplay.tsx` (the ADOF flow).

Conventions used throughout:
- a TypeScript optional field (`x?: string`, possibly absent at runtime)
  is an `Option String`; `none` is an absent/undefined field;
- JavaScript truthiness on strings treats both `undefined` and the empty
  string as falsy, so `a || b` on optional strings is `jsOrO` below;
- fallible async calls are oracles of type `Except String α`: the caller
  receives either the parsed response or the thrown error message;
- a JavaScript object used as a number-keyed map is an association list
  `List (Nat × Int)` built only by `jsInsert` (spread-update semantics).
-/

namespace Projekanda

/-- JS truthiness for an optional string: `undefined` and `""` are falsy. -/
def optTruthy : Option String → Bool
  | some s => s ≠ ""
  | none => false

/-- JS `a || b` on optional strings: keep `a` when truthy, else `b`. -/
def jsOrO (a b : Option String) : Option String :=
  if optTruthy a then a else b

/-- JS `a || b` where `a` is an optional string and `b` a plain string
(models a final `|| 'default'`). -/
def jsStrOr (a : Option String) (b : String) : String :=
  match a with
  | some s => if s = "" then b else s
  | none => b

/-- JS `String.prototype.trim()`: strip leading and trailing whitespace
(modelled over the character list so that it computes by `decide`). -/
def jsTrim (s : String) : String :=
  ⟨((s.data.dropWhile Char.isWhitespace).reverse.dropWhile Char.isWhitespace).reverse⟩

/-- JS template interpolation of a possibly-undefined string:
`undefined` prints as the literal text "undefined". -/
def jsStr : Option String → String
  | some s => s
  | none => "undefined"

/-- One answer option of a question: `{ score: number; text: string }`
(interface `TestQuestion.options` in src/lib/api.ts). -/
structure ScoreOption where
  score : Int
  text : String
deriving DecidableEq, Repr

/-- Interface `TestQuestion` in src/lib/api.ts. -/
structure TestQuestion where
  question : String
  question_no : Int
  trait : String
  options : List ScoreOption
deriving DecidableEq, Repr

/-- Interface `GenerateTestResponse` in src/lib/api.ts: the identifier can
arrive under any of five optional field names. -/
structure GenerateTestResponse where
  mcqs_id : Option String
  document_id : Option String
  documentId : Option String
  id : Option String
  _id : Option String
  message : String
  questions : List TestQuestion
  trait : Option String
deriving DecidableEq, Repr

/-- Interface `GetMcqsResponse` in src/lib/api.ts. -/
structure GetMcqsResponse where
  mcqs_id : Option String
  document_id : Option String
  questions : List TestQuestion
  message : Option String
deriving DecidableEq, Repr

/-- Function `getDocumentId` in TestDisplay.tsx (lines 24-26), the same expression is
inlined in ADOFTestDisplay.tsx line 119:
`testData.mcqs_id || testData.document_id || testData.documentId ||
 testData.id || testData._id || ''`. -/
def getDocumentId (t : GenerateTestResponse) : String :=
  jsStrOr (jsOrO (jsOrO (jsOrO (jsOrO t.mcqs_id t.document_id) t.documentId) t.id) t._id) ""

/-- The fixed five-label Likert vocabulary used for answer values
(TestDisplay.tsx line 133). -/
def likertVocab : List String :=
  ["Strongly Disagree", "Disagree", "Neutral", "Agree", "Strongly Agree"]

/-- The `switch (score)` translation in TestDisplay.tsx lines 104-122 (the
identical switch appears in ADOFTestDisplay.tsx lines 130-148): scores 1-5
map to the five Likert phrases, anything else to "Neutral". -/
def scoreToLikert (score : Int) : String :=
  if score = 1 then "Strongly Disagree"
  else if score = 2 then "Disagree"
  else if score = 3 then "Neutral"
  else if score = 4 then "Agree"
  else if score = 5 then "Strongly Agree"
  else "Neutral"

/-- The first non-empty value of a priority-ordered list of optional
strings; empty when none is present. -/
def firstNonEmptyField : List (Option String) → String
  | [] => ""
  | none :: rest => firstNonEmptyField rest
  | some s :: rest => if s = "" then firstNonEmptyField rest else s

/-- Modelled from the spec (refinement side of the identifier-resolution
claim): "select the first non-empty value in priority order
mcqs_id, document_id, documentId, id, _id"; empty result when none is
present. -/
def specResolvedId (t : GenerateTestResponse) : String :=
  firstNonEmptyField [t.mcqs_id, t.document_id, t.documentId, t.id, t._id]

/-- The `data` record of a submission / result response
(interfaces `SubmitAnswersResponse.data` and `TestResult.data` in
src/lib/api.ts). `result_id` and `percentage` are optional here because the
handlers probe for their absence at runtime
(TestDisplay.tsx lines 320 and 344). -/
structure SubmitData where
  analysis : List (String × String)
  max_score : Int
  mcq_id : String
  percentage : Option Int
  result_id : Option String
  total_score : Int
  user_id : String
deriving DecidableEq, Repr

/-- A submission (or fetched-result) response as the handlers actually probe
it: TestDisplay.tsx line 320 reads a top-level `result_id` that the declared
TypeScript type does not even have, and guards `data` with `&&`, so both are
optional here. `TestResult` has the same shape and is represented by the same
structure. -/
structure SubmitResp where
  result_id : Option String
  data : Option SubmitData
  message : Option String
deriving DecidableEq, Repr

/-- Interface `SubmitAnswersData` in src/lib/api.ts: the request body of
POST /submit_answers. -/
structure SubmitRequest where
  user_id : String
  mcq_id : String
  answers : List (String × String)
deriving DecidableEq, Repr

/-- Network requests the orchestration layer can issue, recorded so that
theorems can speak about which calls a handler makes and in which order. -/
inductive ApiRequest where
  | generateTest (userId : String)
  | getMcqs (userId : String)
  | submitAnswers (body : SubmitRequest)
  | getResultById (resultId : String)
deriving DecidableEq, Repr

/-- A `toast(...)` notification: title, description, and whether the
`destructive` variant was used. -/
structure Toast where
  title : String
  description : String
  destructive : Bool
deriving DecidableEq, Repr

/-- The component state of TestDisplay.tsx that the handlers read and write
(`useState` hooks, lines 16-20). `selectedAnswers` is the number-keyed
object `{ [questionIndex: number]: number }`. -/
structure TestState where
  selectedAnswers : List (Nat × Int)
  isSubmitted : Bool
  isSubmitting : Bool
  currentQuestionIndex : Nat
  testResult : Option SubmitResp
deriving DecidableEq, Repr

/-- JS spread-update `{ ...prev, [k]: v }` on a number-keyed object: replace
the value when the key is present, append the pair otherwise. -/
def jsInsert (l : List (Nat × Int)) (k : Nat) (v : Int) : List (Nat × Int) :=
  if l.any (fun p => p.1 = k) then
    l.map (fun p => if p.1 = k then (k, v) else p)
  else
    l ++ [(k, v)]

/-- Reading `obj[j]` on the number-keyed object. -/
def lookupA (l : List (Nat × Int)) (j : Nat) : Option Int :=
  (l.find? (fun p => p.1 = j)).map (fun p => p.2)

/-- Function `handleAnswerSelect` in TestDisplay.tsx lines 39-46: a no-op once
`isSubmitted` is set, otherwise a spread-update of `selectedAnswers`. -/
def handleAnswerSelect (st : TestState) (questionIndex : Nat) (optionScore : Int) : TestState :=
  if st.isSubmitted then st
  else { st with selectedAnswers := jsInsert st.selectedAnswers questionIndex optionScore }

/-- Function `handleNext` in TestDisplay.tsx lines 48-52. -/
def handleNext (st : TestState) (numQuestions : Nat) : TestState :=
  if st.currentQuestionIndex < numQuestions - 1 then
    { st with currentQuestionIndex := st.currentQuestionIndex + 1 }
  else st

/-- Function `handlePrevious` in TestDisplay.tsx lines 54-58. -/
def handlePrevious (st : TestState) : TestState :=
  if st.currentQuestionIndex > 0 then
    { st with currentQuestionIndex := st.currentQuestionIndex - 1 }
  else st

/-- TestDisplay.tsx lines 99-124: `Object.entries(selectedAnswers)` with each
key `questionIndex` re-parsed by `parseInt` and shifted to one-based
(`questionNumber = parseInt(questionIndex) + 1`), each score translated by
the Likert switch. In the embedding the object is already a `Nat`-keyed
association list, so `parseInt` of the stringified key is the key itself. -/
def buildAnswersForAPI (selectedAnswers : List (Nat × Int)) : List (String × String) :=
  selectedAnswers.map (fun p => (toString (p.1 + 1), scoreToLikert p.2))

/-- The filter of TestDisplay.tsx lines 132-134: an answer value is invalid
when falsy (empty) or outside the Likert vocabulary (every value is a string
here, so the `typeof` disjunct is vacuous). -/
def invalidAnswers (answersForAPI : List (String × String)) : List (String × String) :=
  answersForAPI.filter (fun kv => kv.2 = "" || !(likertVocab.contains kv.2))

/-- The message built at TestDisplay.tsx line 138. -/
def invalidAnswersMsg (invalid : List (String × String)) : String :=
  "Invalid answers detected: " ++
    String.intercalate ", " (invalid.map (fun kv => kv.1 ++ ": " ++ kv.2))

/-- The hardcoded 20-answer map of TestDisplay.tsx lines 275-296, retried
when the standard submission body is rejected. -/
def hardcodedAnswers : List (String × String) :=
  [("1", "Agree"), ("2", "Strongly Agree"), ("3", "Neutral"), ("4", "Disagree"),
   ("5", "Strongly Agree"), ("6", "Agree"), ("7", "Strongly Agree"), ("8", "Neutral"),
   ("9", "Agree"), ("10", "Disagree"), ("11", "Strongly Agree"), ("12", "Neutral"),
   ("13", "Agree"), ("14", "Disagree"), ("15", "Strongly Agree"), ("16", "Disagree"),
   ("17", "Agree"), ("18", "Disagree"), ("19", "Strongly Agree"), ("20", "Neutral")]

/-- The fallback request body `hardcodedTestRequest` of TestDisplay.tsx
lines 272-297. -/
def hardcodedRequest (userId documentId : String) : SubmitRequest :=
  ⟨userId, documentId, hardcodedAnswers⟩

/-- TestDisplay.tsx line 320:
`submitResponse.result_id || (submitResponse.data && submitResponse.data.result_id)`,
then used under the truthiness test `if (resultId)` of line 323; the result
is `some rid` exactly when the handler takes the fetch branch. -/
def resolvedResultId (resp : SubmitResp) : Option String :=
  let r := jsOrO resp.result_id (resp.data.bind (fun d => d.result_id))
  if optTruthy r then r else none

/-- TestDisplay.tsx lines 319-338: when a result id is found, fetch the
detailed result; display it when it carries a `data` field, otherwise (or
when the fetch throws, or when no id is found) display the raw submission
response. Also returns the fetch requests issued. -/
def resolveDisplayedResult (resp : SubmitResp) (getResultO : String → Except String SubmitResp) :
    SubmitResp × List ApiRequest :=
  match resolvedResultId resp with
  | some rid =>
    match getResultO rid with
    | Except.ok detailed => ((if detailed.data.isSome then detailed else resp), [ApiRequest.getResultById rid])
    | Except.error _ => (resp, [ApiRequest.getResultById rid])
  | none => (resp, [])

/-- The score shown by the success toast, TestDisplay.tsx lines 344-346:
`submitResponse.data?.percentage ||` a probe of `data.data.percentage` (a
field the response shape never has, hence undefined) `: 'N/A'`. A present
percentage of 0 is falsy and also yields "N/A". -/
def percentDisplay (resp : SubmitResp) : String :=
  match resp.data with
  | some d =>
    match d.percentage with
    | some p => if p = 0 then "N/A" else toString p
    | none => "N/A"
  | none => "N/A"

/-- The destructive toast of the outer catch, TestDisplay.tsx lines 354-358. -/
def toastSubmitError (msg : String) : Toast :=
  ⟨"Submission Failed", msg, true⟩

/-- The early-return toast of TestDisplay.tsx lines 62-66. -/
def toastIncomplete : Toast :=
  ⟨"Incomplete Test", "Please answer all questions before submitting.", true⟩

/-- Tail of the success path, TestDisplay.tsx lines 319-351: resolve the
displayed result, set it, mark submitted, show the score toast. -/
def finishSubmit (st1 : TestState) (submitResponse : SubmitResp)
    (getResultO : String → Except String SubmitResp) (reqs : List ApiRequest) :
    TestState × List ApiRequest × Toast :=
  let res := resolveDisplayedResult submitResponse getResultO
  ({ st1 with testResult := some res.1, isSubmitted := true, isSubmitting := false },
   reqs ++ res.2,
   ⟨"Test Submitted Successfully!", "Your score: " ++ percentDisplay submitResponse ++ "%", false⟩)

/-- Function `handleSubmit` in TestDisplay.tsx lines 60-362, as a function of the
component state, the props (`testData`, `userId`) and the network oracles.
Returns the final state (after the `finally`), the list of network requests
issued, and the toast shown. Control flow mirrors the source: completeness
guard; reset of `testResult`; userId and documentId validation throws;
answer conversion and the two vacuous answer validations; a swallowed
`getMcqs` probe; the standard submission with a hardcoded-body retry; result
resolution with fallback. -/
def handleSubmitP6 (st : TestState) (testData : GenerateTestResponse) (userId : String)
    (submitO : SubmitRequest → Except String SubmitResp)
    (getResultO : String → Except String SubmitResp) :
    TestState × List ApiRequest × Toast :=
  if st.selectedAnswers.length ≠ testData.questions.length then
    (st, [], toastIncomplete)
  else
    let st1 : TestState := { st with testResult := none, isSubmitting := false }
    let documentId := getDocumentId testData
    if userId = "" || jsTrim userId = "" then
      (st1, [], toastSubmitError "User ID is required. Please log in again.")
    else if documentId = "" || jsTrim documentId = "" then
      (st1, [], toastSubmitError "Test document ID is required. Please generate a new test.")
    else
      let answersForAPI := buildAnswersForAPI st.selectedAnswers
      if answersForAPI.length = 0 then
        (st1, [], toastSubmitError "No answers provided. Please answer all questions.")
      else if (invalidAnswers answersForAPI).length > 0 then
        (st1, [], toastSubmitError (invalidAnswersMsg (invalidAnswers answersForAPI)))
      else
        let requestBody : SubmitRequest := ⟨userId, documentId, answersForAPI⟩
        let reqs0 := [ApiRequest.getMcqs userId, ApiRequest.submitAnswers requestBody]
        match submitO requestBody with
        | Except.ok submitResponse => finishSubmit st1 submitResponse getResultO reqs0
        | Except.error _ =>
          let hardBody := hardcodedRequest userId documentId
          match submitO hardBody with
          | Except.ok submitResponse =>
            finishSubmit st1 submitResponse getResultO (reqs0 ++ [ApiRequest.submitAnswers hardBody])
          | Except.error e =>
            (st1, reqs0 ++ [ApiRequest.submitAnswers hardBody], toastSubmitError e)

/-- The merged test of Dashboard.tsx lines 36-40:
`{ ...testData, ...mcqsData, mcqs_id: mcqsData.mcqs_id || mcqsData.document_id || testData.mcqs_id }`.
Spreading `mcqsData` overrides exactly the fields its type declares and the
response carries (`mcqs_id`, `document_id`, `questions`, `message`); the
final explicit `mcqs_id` entry then wins over both spreads, with JS `||`
falling through on absent or empty values. -/
def mergeTestData (t : GenerateTestResponse) (m : GetMcqsResponse) : GenerateTestResponse :=
  { t with
    questions := m.questions,
    document_id := m.document_id.or t.document_id,
    message := m.message.getD t.message,
    mcqs_id := jsOrO (jsOrO m.mcqs_id m.document_id) t.mcqs_id }

/-- Function `handleGenerateTest` in Dashboard.tsx lines 17-63, for a logged-in user:
generate first; on success fetch existing MCQs; keep the merged response
only when the fetched question list is non-empty, otherwise (including when
the fetch throws) keep the generated test unmodified. Returns the test that
is set (none when generation itself fails) and the requests issued in
order. -/
def handleGenerateTest (userId : String)
    (generateO : Except String GenerateTestResponse)
    (getMcqsO : Except String GetMcqsResponse) :
    Option GenerateTestResponse × List ApiRequest :=
  match generateO with
  | Except.error _ => (none, [ApiRequest.generateTest userId])
  | Except.ok testData =>
    match getMcqsO with
    | Except.ok mcqsData =>
      if mcqsData.questions.length > 0 then
        (some (mergeTestData testData mcqsData),
         [ApiRequest.generateTest userId, ApiRequest.getMcqs userId])
      else
        (some testData, [ApiRequest.generateTest userId, ApiRequest.getMcqs userId])
    | Except.error _ => (some testData, [ApiRequest.generateTest userId, ApiRequest.getMcqs userId])

/-- Outcome of the ADOF submission flow: either the fetched result is handed
to `onTestComplete`, or the catch block shows a failure toast and nothing is
displayed. -/
inductive AdofOutcome where
  | completed (result : SubmitResp)
  | failed (msg : String)
deriving DecidableEq, Repr

/-- ADOFTestDisplay.tsx lines 160-168: after a successful submission the
result is always fetched by `submitResponse.data.result_id` (no top-level
probe, no fallback); a thrown fetch lands in the catch block of lines
169-175. Takes the present `data` record of the submission response directly
(reading `.result_id` of an absent `data` would itself throw). -/
def adofAfterSubmit (d : SubmitData)
    (getResultO : String → Except String SubmitResp) : AdofOutcome :=
  match getResultO (jsStr d.result_id) with
  | Except.ok resultResponse => AdofOutcome.completed resultResponse
  | Except.error e => AdofOutcome.failed e

/-- A JSON object holding the optional `error` and `message` fields the
error-extraction code probes. -/
structure ParsedError where
  error : Option String
  message : Option String
deriving DecidableEq, Repr

/-- The shared error-message construction of `api.getMcqs` (lines 162-171),
`api.submitAnswers` (lines 215-225) and `api.getResultById` (lines 311-321)
in src/lib/api.ts: the body text is JSON-parsed (the parse outcome is the
`parsed` oracle); on success `errorData.error || errorData.message ||
default`, on parse failure `responseText || default`. -/
def errorMessageFromBody (responseText : String) (parsed : Option ParsedError)
    (dflt : String) : String :=
  match parsed with
  | some d => jsStrOr d.error (jsStrOr d.message dflt)
  | none => if responseText = "" then dflt else responseText

/-- Error message of `api.getMcqs`, default "Failed to get MCQs". -/
def getMcqsErrorMessage (responseText : String) (parsed : Option ParsedError) : String :=
  errorMessageFromBody responseText parsed "Failed to get MCQs"

/-- Error message of `api.submitAnswers`, default "Answer submission failed". -/
def submitAnswersErrorMessage (responseText : String) (parsed : Option ParsedError) : String :=
  errorMessageFromBody responseText parsed "Answer submission failed"

/-- Error message of `api.getResultById`, default "Failed to fetch result". -/
def getResultErrorMessage (responseText : String) (parsed : Option ParsedError) : String :=
  errorMessageFromBody responseText parsed "Failed to fetch result"

/-- Function `api.signup` lines 98-101: `throw new Error(error || 'Signup failed')`
where `error` is the raw body text — no JSON parse is attempted. -/
def signupErrorMessage (responseText : String) : String :=
  if responseText = "" then "Signup failed" else responseText

/-- Function `api.signin` lines 115-118: same shape as signup. -/
def signinErrorMessage (responseText : String) : String :=
  if responseText = "" then "Signin failed" else responseText

/-- Function `api.getJobs` line 250: the message is built from the HTTP status, the
body text is only logged. -/
def getJobsErrorMessage (status : Int) (statusText : String) : String :=
  "Failed to fetch jobs: " ++ toString status ++ " " ++ statusText

/-- Function `api.submitUserData` line 285: same shape as getJobs. -/
def submitUserDataErrorMessage (status : Int) (statusText : String) : String :=
  "Failed to submit data: " ++ toString status ++ " " ++ statusText

/-- Modelled from the spec (refinement side of the error-message claim):
"All error responses are read as text first, then opportunistically parsed
as JSON to extract an `error` or `message` field; parse failure falls back
to raw text as the message." -/
def specErrorPolicy (responseText : String) (parsed : Option ParsedError)
    (dflt : String) : String :=
  match parsed with
  | some d => jsStrOr d.error (jsStrOr d.message dflt)
  | none => if responseText = "" then dflt else responseText

/-! ## Helper lemmas -/

/-- Truthiness distributes over the JS or. -/
theorem optTruthy_jsOrO (x y : Option String) :
    optTruthy (jsOrO x y) = (optTruthy x || optTruthy y) := by
  unfold jsOrO
  by_cases h : optTruthy x = true <;> simp [h]

/-- JS `||` on optional strings is associative. -/
theorem jsOrO_assoc (x y z : Option String) :
    jsOrO (jsOrO x y) z = jsOrO x (jsOrO y z) := by
  unfold jsOrO
  by_cases hx : optTruthy x = true <;> by_cases hy : optTruthy y = true <;>
    simp [hx, hy, optTruthy_jsOrO]

/-- A right-nested JS or-chain closed with `|| ''` computes the first
non-empty field of the corresponding priority list. -/
theorem jsStrOr_foldr_jsOrO (l : List (Option String)) :
    ∀ x : Option String,
      jsStrOr (l.foldr jsOrO x) "" = firstNonEmptyField (l ++ [x]) := by
  induction l with
  | nil =>
    intro x
    cases x with
    | none => simp [jsStrOr, firstNonEmptyField]
    | some s => by_cases h : s = "" <;> simp [jsStrOr, firstNonEmptyField, h]
  | cons o rest ih =>
    intro x
    cases o with
    | none => simp [jsOrO, optTruthy, ih, firstNonEmptyField]
    | some s =>
      by_cases h : s = ""
      · simp [jsOrO, optTruthy, h, ih, firstNonEmptyField]
      · simp [jsOrO, optTruthy, h, jsStrOr, firstNonEmptyField]

/-- The in-place update of a present key preserves lookups at other keys. -/
theorem find?_map_update_ne (l : List (Nat × Int)) (k : Nat) (v : Int) (j : Nat)
    (h : j ≠ k) :
    (l.map (fun p => if p.1 = k then (k, v) else p)).find? (fun p => p.1 = j) =
      l.find? (fun p => p.1 = j) := by
  have hkj : ¬(k = j) := fun hkj => h hkj.symm
  induction l with
  | nil => rfl
  | cons p tl ih =>
    by_cases hp : p.1 = k
    · have hpj : ¬(p.1 = j) := by rw [hp]; exact hkj
      simp only [List.map_cons, hp, if_true]
      rw [List.find?_cons_of_neg _ (by simpa using hkj),
          List.find?_cons_of_neg _ (by simpa using hpj), ih]
    · simp only [List.map_cons, hp, if_false]
      by_cases hj : p.1 = j
      · rw [List.find?_cons_of_pos _ (by simpa using hj),
            List.find?_cons_of_pos _ (by simpa using hj)]
      · rw [List.find?_cons_of_neg _ (by simpa using hj),
            List.find?_cons_of_neg _ (by simpa using hj), ih]

/-- The in-place update of a present key makes lookups at that key return
the new pair. -/
theorem find?_map_update_self (l : List (Nat × Int)) (k : Nat) (v : Int)
    (h : l.any (fun p => p.1 = k) = true) :
    (l.map (fun p => if p.1 = k then (k, v) else p)).find? (fun p => p.1 = k) =
      some (k, v) := by
  induction l with
  | nil => simp at h
  | cons p tl ih =>
    by_cases hp : p.1 = k
    · simp only [List.map_cons, hp, if_true]
      rw [List.find?_cons_of_pos _ (by simp)]
    · simp only [List.any_cons, hp] at h
      simp only [List.map_cons, hp, if_false]
      rw [List.find?_cons_of_neg _ (by simpa using hp)]
      exact ih (by simpa using h)

/-- A spread-update leaves every other key of the object untouched. -/
theorem lookupA_jsInsert_ne (l : List (Nat × Int)) (k : Nat) (v : Int) (j : Nat)
    (h : j ≠ k) : lookupA (jsInsert l k v) j = lookupA l j := by
  unfold jsInsert
  by_cases hk : l.any (fun p => p.1 = k) = true
  · rw [if_pos hk]
    unfold lookupA
    rw [find?_map_update_ne l k v j h]
  · rw [if_neg hk]
    unfold lookupA
    rw [List.find?_append]
    have h1 : List.find? (fun p => p.1 = j) [(k, v)] = none := by
      rw [List.find?_cons_of_neg _ (by simpa using fun hkj => h hkj.symm)]
      rfl
    rw [h1]
    cases List.find? (fun p => p.1 = j) l <;> rfl

/-- A spread-update stores the new value at its key. -/
theorem lookupA_jsInsert_self (l : List (Nat × Int)) (k : Nat) (v : Int) :
    lookupA (jsInsert l k v) k = some v := by
  unfold jsInsert
  by_cases hk : l.any (fun p => p.1 = k) = true
  · rw [if_pos hk]
    unfold lookupA
    rw [find?_map_update_self l k v hk]
    rfl
  · rw [if_neg hk]
    unfold lookupA
    rw [List.find?_append]
    have hnone : List.find? (fun p => p.1 = k) l = none := by
      rw [List.find?_eq_none]
      intro x hx hxk
      exact hk (List.any_eq_true.mpr ⟨x, hx, hxk⟩)
    rw [hnone]
    rw [Option.none_or, List.find?_cons_of_pos _ (by simp)]
    rfl

/-- Every score translates into the fixed Likert vocabulary. -/
theorem scoreToLikert_mem_vocab (s : Int) : scoreToLikert s ∈ likertVocab := by
  unfold scoreToLikert
  split_ifs <;> simp [likertVocab]

/-- When every identifier field of a response is absent or empty, the
resolved identifier is the empty string. -/
theorem getDocumentId_of_no_id (t : GenerateTestResponse)
    (h1 : optTruthy t.mcqs_id = false) (h2 : optTruthy t.document_id = false)
    (h3 : optTruthy t.documentId = false) (h4 : optTruthy t.id = false)
    (h5 : optTruthy t._id = false) : getDocumentId t = "" := by
  simp only [getDocumentId, jsOrO, h1, h2, h3, h4, h5, if_false, Bool.false_eq_true]
  cases h : t._id with
  | none => simp [jsStrOr]
  | some s =>
    rw [h] at h5
    simp only [optTruthy, ne_eq, decide_not, Bool.not_eq_false', decide_eq_true_eq] at h5
    simp [jsStrOr, h5]

/-! ## Claims -/

/-- C1: for every test-response object the resolved test identifier used at
submission is the first non-empty value in priority order
mcqs_id, document_id, documentId, id, _id (the spec-worded `specResolvedId`);
in particular a response with no usable `mcqs_id` but a present non-empty
`document_id` resolves to that `document_id`. -/
theorem resolved_id_priority :
    (∀ t : GenerateTestResponse, getDocumentId t = specResolvedId t) ∧
    (∀ (t : GenerateTestResponse) (s : String),
      optTruthy t.mcqs_id = false → t.document_id = some s → s ≠ "" →
      getDocumentId t = s) := by
  constructor
  · intro t
    rw [getDocumentId, specResolvedId, jsOrO_assoc, jsOrO_assoc, jsOrO_assoc]
    have h2 : List.foldr jsOrO t._id [t.mcqs_id, t.document_id, t.documentId, t.id] =
        jsOrO t.mcqs_id (jsOrO t.document_id (jsOrO t.documentId (jsOrO t.id t._id))) := rfl
    rw [← h2, jsStrOr_foldr_jsOrO]
    rfl
  · intro t s h1 h2 h3
    simp only [getDocumentId, jsOrO, h1, h2, Bool.false_eq_true, if_false]
    simp [optTruthy, h3, jsStrOr]

/-- Witness for C1 at a concrete response with an empty `mcqs_id` and a
present `document_id`. -/
theorem resolved_id_priority_witness :
    getDocumentId ⟨some "", some "doc42", some "x", none, none, "m", [], none⟩ = "doc42" :=
  resolved_id_priority.2 ⟨some "", some "doc42", some "x", none, none, "m", [], none⟩
    "doc42" (by decide) rfl (by decide)

/-- C2: the score-to-Likert translation is total, maps 1-5 to the five fixed
phrases, and every other numeric input (e.g. 99) to "Neutral". -/
theorem score_translation_total :
    scoreToLikert 1 = "Strongly Disagree" ∧ scoreToLikert 2 = "Disagree" ∧
    scoreToLikert 3 = "Neutral" ∧ scoreToLikert 4 = "Agree" ∧
    scoreToLikert 5 = "Strongly Agree" ∧
    ∀ s : Int, s ≠ 1 → s ≠ 2 → s ≠ 3 → s ≠ 4 → s ≠ 5 → scoreToLikert s = "Neutral" := by
  refine ⟨rfl, rfl, rfl, rfl, rfl, ?_⟩
  intro s h1 h2 h3 h4 h5
  simp [scoreToLikert, h1, h2, h3, h4, h5]

/-- Witness for C2 at the inputs 99 and 3 named by the claim. -/
theorem score_translation_total_witness :
    scoreToLikert 99 = "Neutral" ∧ scoreToLikert 3 = "Neutral" :=
  ⟨score_translation_total.2.2.2.2.2 99 (by decide) (by decide) (by decide)
    (by decide) (by decide), score_translation_total.2.2.1⟩

/-- C3: test acquisition calls generate first and fetch-existing-MCQs second
(the request trace lists them in that order); when the fetched response has a
non-empty question list its fields override the generated response through
`mergeTestData` (identifier: fetched `mcqs_id`, then fetched `document_id`,
then generated `mcqs_id`); when the fetch returns zero questions or throws,
the generated test is kept unmodified. -/
theorem test_acquisition_merge :
    (∀ (userId : String) (t : GenerateTestResponse) (m : GetMcqsResponse),
      m.questions.length > 0 →
      handleGenerateTest userId (Except.ok t) (Except.ok m) =
        (some (mergeTestData t m),
         [ApiRequest.generateTest userId, ApiRequest.getMcqs userId])) ∧
    (∀ (userId : String) (t : GenerateTestResponse) (m : GetMcqsResponse),
      m.questions = [] →
      handleGenerateTest userId (Except.ok t) (Except.ok m) =
        (some t, [ApiRequest.generateTest userId, ApiRequest.getMcqs userId])) ∧
    (∀ (userId : String) (t : GenerateTestResponse) (e : String),
      handleGenerateTest userId (Except.ok t) (Except.error e) =
        (some t, [ApiRequest.generateTest userId, ApiRequest.getMcqs userId])) ∧
    (∀ (t : GenerateTestResponse) (m : GetMcqsResponse),
      (mergeTestData t m).questions = m.questions ∧
      (mergeTestData t m).mcqs_id = jsOrO (jsOrO m.mcqs_id m.document_id) t.mcqs_id) := by
  refine ⟨?_, ?_, ?_, ?_⟩
  · intro userId t m h
    simp [handleGenerateTest, h]
  · intro userId t m h
    simp [handleGenerateTest, h]
  · intro userId t e
    simp [handleGenerateTest]
  · intro t m
    exact ⟨rfl, rfl⟩

/-- Witness for C3: a fetched single-question response overrides the
generated one, and an empty fetched response does not. -/
theorem test_acquisition_merge_witness :
    handleGenerateTest "u1" (Except.ok ⟨none, none, none, none, none, "gen", [], none⟩)
        (Except.ok ⟨some "m9", none, [⟨"q", 1, "t", []⟩], none⟩) =
      (some (mergeTestData ⟨none, none, none, none, none, "gen", [], none⟩
        ⟨some "m9", none, [⟨"q", 1, "t", []⟩], none⟩),
       [ApiRequest.generateTest "u1", ApiRequest.getMcqs "u1"]) ∧
    handleGenerateTest "u1" (Except.ok ⟨none, none, none, none, none, "gen", [], none⟩)
        (Except.ok ⟨some "m9", none, [], none⟩) =
      (some ⟨none, none, none, none, none, "gen", [], none⟩,
       [ApiRequest.generateTest "u1", ApiRequest.getMcqs "u1"]) :=
  ⟨test_acquisition_merge.1 "u1" ⟨none, none, none, none, none, "gen", [], none⟩
      ⟨some "m9", none, [⟨"q", 1, "t", []⟩], none⟩ (by decide),
   test_acquisition_merge.2.1 "u1" ⟨none, none, none, none, none, "gen", [], none⟩
      ⟨some "m9", none, [], none⟩ rfl⟩

/-- C4 counterexample: the claim also covers the ADOF flow
(ADOFTestDisplay.tsx lines 160-168), but there a failing result fetch does
not fall back to the raw submission response — the catch block reports a
failure and nothing is displayed. Concrete input: a submission response
whose `data.result_id` is "r1", with a result fetch that throws. -/
theorem adof_no_result_fallback_counterexample :
    adofAfterSubmit ⟨[], 20, "m1", some 80, some "r1", 16, "u1"⟩
        (fun _ => Except.error "Failed to fetch result") =
      AdofOutcome.failed "Failed to fetch result" ∧
    adofAfterSubmit ⟨[], 20, "m1", some 80, some "r1", 16, "u1"⟩
        (fun _ => Except.error "Failed to fetch result") ≠
      AdofOutcome.completed ⟨none, some ⟨[], 20, "m1", some 80, some "r1", 16, "u1"⟩, none⟩ := by
  exact ⟨rfl, by decide⟩

/-- C4 (amended): in the main TestDisplay flow the result identifier is
probed at the top level and then under `data`; when found the full result is
fetched, and a failing fetch — or a missing identifier — falls back to
displaying the raw submission response. In the ADOF flow the result is
always fetched by `data.result_id` alone and a failing fetch surfaces as a
submission error with no fallback. -/
theorem submission_result_resolution :
    (∀ (resp : SubmitResp) (getResultO : String → Except String SubmitResp),
      resolvedResultId resp = none →
      resolveDisplayedResult resp getResultO = (resp, [])) ∧
    (∀ (resp : SubmitResp) (getResultO : String → Except String SubmitResp)
        (rid : String) (e : String),
      resolvedResultId resp = some rid → getResultO rid = Except.error e →
      resolveDisplayedResult resp getResultO = (resp, [ApiRequest.getResultById rid])) ∧
    (∀ (resp : SubmitResp) (getResultO : String → Except String SubmitResp)
        (rid : String) (detailed : SubmitResp),
      resolvedResultId resp = some rid → getResultO rid = Except.ok detailed →
      resolveDisplayedResult resp getResultO =
        ((if detailed.data.isSome then detailed else resp),
         [ApiRequest.getResultById rid])) ∧
    (∀ (resp : SubmitResp) (rid : String),
      resp.result_id = some rid → rid ≠ "" → resolvedResultId resp = some rid) ∧
    (∀ (resp : SubmitResp) (d : SubmitData),
      resp.result_id = none → resp.data = some d →
      resolvedResultId resp = (if optTruthy d.result_id then d.result_id else none)) ∧
    (∀ (d : SubmitData) (getResultO : String → Except String SubmitResp) (e : String),
      getResultO (jsStr d.result_id) = Except.error e →
      adofAfterSubmit d getResultO = AdofOutcome.failed e) := by
  refine ⟨?_, ?_, ?_, ?_, ?_, ?_⟩
  · intro resp getResultO h
    simp [resolveDisplayedResult, h]
  · intro resp getResultO rid e h he
    simp [resolveDisplayedResult, h, he]
  · intro resp getResultO rid detailed h hk
    simp [resolveDisplayedResult, h, hk]
  · intro resp rid h hne
    simp [resolvedResultId, jsOrO, optTruthy, h, hne]
  · intro resp d h hd
    simp [resolvedResultId, jsOrO, optTruthy, h, hd]
  · intro d getResultO e h
    simp [adofAfterSubmit, h]

/-- Witness for C4 (amended): a response with no identifier anywhere falls
back to itself, and one whose fetch fails also falls back to itself. -/
theorem submission_result_resolution_witness :
    resolveDisplayedResult ⟨none, none, some "ok"⟩ (fun _ => Except.error "x") =
      (⟨none, none, some "ok"⟩, []) ∧
    resolveDisplayedResult ⟨some "r7", none, none⟩ (fun _ => Except.error "down") =
      (⟨some "r7", none, none⟩, [ApiRequest.getResultById "r7"]) :=
  ⟨submission_result_resolution.1 ⟨none, none, some "ok"⟩ (fun _ => Except.error "x") rfl,
   submission_result_resolution.2.1 ⟨some "r7", none, none⟩ (fun _ => Except.error "down")
     "r7" "down" rfl rfl⟩

/-- C5: with fewer selected answers than questions (and in fact whenever the
counts differ), submission returns before any effect: the state is
unchanged, no network request is issued, and the destructive
"Incomplete Test" toast is shown; so submission proceeds only when the
selected-answers map has exactly one entry per question. -/
theorem incomplete_submission_rejected :
    (∀ (st : TestState) (testData : GenerateTestResponse) (userId : String)
        (submitO : SubmitRequest → Except String SubmitResp)
        (getResultO : String → Except String SubmitResp),
      st.selectedAnswers.length < testData.questions.length →
      handleSubmitP6 st testData userId submitO getResultO = (st, [], toastIncomplete)) ∧
    (∀ (st : TestState) (testData : GenerateTestResponse) (userId : String)
        (submitO : SubmitRequest → Except String SubmitResp)
        (getResultO : String → Except String SubmitResp),
      st.selectedAnswers.length ≠ testData.questions.length →
      handleSubmitP6 st testData userId submitO getResultO = (st, [], toastIncomplete)) ∧
    toastIncomplete.destructive = true := by
  refine ⟨?_, ?_, rfl⟩
  · intro st testData userId submitO getResultO h
    simp [handleSubmitP6, Nat.ne_of_lt h]
  · intro st testData userId submitO getResultO h
    simp [handleSubmitP6, h]

/-- Witness for C5: one answer for a two-question test is rejected with no
request issued. -/
theorem incomplete_submission_rejected_witness :
    handleSubmitP6 ⟨[(0, 3)], false, false, 0, none⟩
        ⟨some "d1", none, none, none, none, "m", [⟨"q1", 1, "t", []⟩, ⟨"q2", 2, "t", []⟩], none⟩
        "u1" (fun _ => Except.error "unused") (fun _ => Except.error "unused") =
      (⟨[(0, 3)], false, false, 0, none⟩, [], toastIncomplete) :=
  incomplete_submission_rejected.1 ⟨[(0, 3)], false, false, 0, none⟩
    ⟨some "d1", none, none, none, none, "m", [⟨"q1", 1, "t", []⟩, ⟨"q2", 2, "t", []⟩], none⟩
    "u1" (fun _ => Except.error "unused") (fun _ => Except.error "unused") (by decide)

/-- C6: for a fully-answered N-question test (the selected-answer keys are a
permutation of the zero-based indices 0..N-1), the transmitted answers map
has exactly N entries, its keys are exactly the one-based stringified
integers "1".."N", and every value is in the five-label Likert
vocabulary. -/
theorem answers_payload_shape (sa : List (Nat × Int)) (N : Nat)
    (h : (sa.map Prod.fst).Perm (List.range N)) :
    (buildAnswersForAPI sa).length = N ∧
    ((buildAnswersForAPI sa).map Prod.fst).Perm
      ((List.range N).map (fun i => toString (i + 1))) ∧
    ∀ p ∈ buildAnswersForAPI sa, p.2 ∈ likertVocab := by
  refine ⟨?_, ?_, ?_⟩
  · have hlen := h.length_eq
    simp only [List.length_map, List.length_range] at hlen
    simp [buildAnswersForAPI, hlen]
  · have hmap := h.map (fun i => toString (i + 1))
    have heq : (buildAnswersForAPI sa).map Prod.fst =
        (sa.map Prod.fst).map (fun i => toString (i + 1)) := by
      simp [buildAnswersForAPI, List.map_map, Function.comp]
    rw [heq]
    exact hmap
  · intro p hp
    simp only [buildAnswersForAPI, List.mem_map] at hp
    obtain ⟨q, _, hq⟩ := hp
    rw [← hq]
    exact scoreToLikert_mem_vocab q.2

/-- Witness for C6 at a concrete fully-answered two-question test, with one
out-of-range score (99) still landing in the vocabulary. -/
theorem answers_payload_shape_witness :
    (buildAnswersForAPI [(1, 99), (0, 2)]).length = 2 ∧
    ((buildAnswersForAPI [(1, 99), (0, 2)]).map Prod.fst).Perm
      ((List.range 2).map (fun i => toString (i + 1))) ∧
    ∀ p ∈ buildAnswersForAPI [(1, 99), (0, 2)], p.2 ∈ likertVocab :=
  answers_payload_shape [(1, 99), (0, 2)] 2 (by decide)

/-- C7: when the selected answers are complete and the user id is usable but
none of the five identifier fields holds a non-empty value, submission
throws before any network call: the final state differs from the pre-action
state only by the `testResult` reset and the cleared in-flight flag
(`isSubmitted` and the selected answers survive), no request is issued, and
the destructive toast asks for the test to be regenerated. -/
theorem missing_identifier_feedback (st : TestState) (testData : GenerateTestResponse)
    (userId : String)
    (submitO : SubmitRequest → Except String SubmitResp)
    (getResultO : String → Except String SubmitResp)
    (hlen : st.selectedAnswers.length = testData.questions.length)
    (hu1 : userId ≠ "") (hu2 : jsTrim userId ≠ "")
    (h1 : optTruthy testData.mcqs_id = false) (h2 : optTruthy testData.document_id = false)
    (h3 : optTruthy testData.documentId = false) (h4 : optTruthy testData.id = false)
    (h5 : optTruthy testData._id = false) :
    handleSubmitP6 st testData userId submitO getResultO =
      ({ st with testResult := none, isSubmitting := false }, [],
       toastSubmitError "Test document ID is required. Please generate a new test.") ∧
    (handleSubmitP6 st testData userId submitO getResultO).1.isSubmitted = st.isSubmitted ∧
    (handleSubmitP6 st testData userId submitO getResultO).1.selectedAnswers =
      st.selectedAnswers ∧
    (toastSubmitError "Test document ID is required. Please generate a new test.").destructive =
      true := by
  have hdoc : getDocumentId testData = "" := getDocumentId_of_no_id testData h1 h2 h3 h4 h5
  have hmain : handleSubmitP6 st testData userId submitO getResultO =
      ({ st with testResult := none, isSubmitting := false }, [],
       toastSubmitError "Test document ID is required. Please generate a new test.") := by
    simp [handleSubmitP6, hlen, hu1, hu2, hdoc]
  refine ⟨hmain, ?_, ?_, rfl⟩
  · rw [hmain]
  · rw [hmain]

/-- Witness for C7 at a concrete state and a response whose only identifier
field is the empty string. -/
theorem missing_identifier_feedback_witness :
    handleSubmitP6 ⟨[(0, 4)], false, false, 0, none⟩
        ⟨some "", none, none, none, none, "m", [⟨"q1", 1, "t", []⟩], none⟩
        "u1" (fun _ => Except.error "unused") (fun _ => Except.error "unused") =
      (⟨[(0, 4)], false, false, 0, none⟩, [],
       toastSubmitError "Test document ID is required. Please generate a new test.") :=
  (missing_identifier_feedback ⟨[(0, 4)], false, false, 0, none⟩
    ⟨some "", none, none, none, none, "m", [⟨"q1", 1, "t", []⟩], none⟩
    "u1" (fun _ => Except.error "unused") (fun _ => Except.error "unused")
    rfl (by decide) (by decide) (by decide) (by decide) (by decide) (by decide) (by decide)).1

/-- C8 counterexample: `api.signup` (src/lib/api.ts lines 98-101) throws the
raw body text without attempting the JSON extraction, so for the body text
consisting of a JSON object with an `error` field of "boom" it reports the
whole JSON text while the opportunistic-extraction policy of the claim would
report "boom". -/
theorem error_extraction_counterexample :
    signupErrorMessage "\x7b\x22error\x22:\x22boom\x22\x7d" =
      "\x7b\x22error\x22:\x22boom\x22\x7d" ∧
    specErrorPolicy "\x7b\x22error\x22:\x22boom\x22\x7d"
      (some ⟨some "boom", none⟩) "Signup failed" = "boom" ∧
    signupErrorMessage "\x7b\x22error\x22:\x22boom\x22\x7d" ≠
      specErrorPolicy "\x7b\x22error\x22:\x22boom\x22\x7d"
        (some ⟨some "boom", none⟩) "Signup failed" := by
  exact ⟨rfl, rfl, by decide⟩

/-- C8 (amended): the error responses of `getMcqs`, `submitAnswers` and
`getResultById` are read as text and opportunistically JSON-parsed to
extract an `error` or `message` field, falling back to the raw text; but
`signup` and `signin` throw the raw text directly (a fixed default when
empty) with no JSON extraction, and `getJobs` builds its message from the
HTTP status instead of the body. -/
theorem error_message_extraction :
    (∀ (t : String) (p : Option ParsedError),
      getMcqsErrorMessage t p = specErrorPolicy t p "Failed to get MCQs") ∧
    (∀ (t : String) (p : Option ParsedError),
      submitAnswersErrorMessage t p = specErrorPolicy t p "Answer submission failed") ∧
    (∀ (t : String) (p : Option ParsedError),
      getResultErrorMessage t p = specErrorPolicy t p "Failed to fetch result") ∧
    (∀ t : String, t ≠ "" → signupErrorMessage t = t) ∧
    (∀ t : String, t ≠ "" → signinErrorMessage t = t) ∧
    (∀ (s : Int) (st : String),
      getJobsErrorMessage s st = "Failed to fetch jobs: " ++ toString s ++ " " ++ st) := by
  refine ⟨fun t p => rfl, fun t p => rfl, fun t p => rfl, ?_, ?_, fun s st => rfl⟩
  · intro t h
    simp [signupErrorMessage, h]
  · intro t h
    simp [signinErrorMessage, h]

/-- Witness for C8 (amended) at a non-empty signup body and a parsed
submit-answers body. -/
theorem error_message_extraction_witness :
    signupErrorMessage "oops" = "oops" ∧
    submitAnswersErrorMessage "raw" (some ⟨none, some "msg"⟩) =
      specErrorPolicy "raw" (some ⟨none, some "msg"⟩) "Answer submission failed" :=
  ⟨error_message_extraction.2.2.2.1 "oops" (by decide),
   error_message_extraction.2.1 "raw" (some ⟨none, some "msg"⟩)⟩

/-- C9: selecting a score for question `i` changes only entry `i` of the
selected-answers map (and records the score when the test is not yet
submitted), and moving to the next or previous question changes no entry at
all, so a revisited question shows its prior selection. -/
theorem answer_capture_no_loss :
    (∀ (st : TestState) (i : Nat) (score : Int) (j : Nat), j ≠ i →
      lookupA (handleAnswerSelect st i score).selectedAnswers j =
        lookupA st.selectedAnswers j) ∧
    (∀ (st : TestState) (i : Nat) (score : Int), st.isSubmitted = false →
      lookupA (handleAnswerSelect st i score).selectedAnswers i = some score) ∧
    (∀ (st : TestState) (n : Nat),
      (handleNext st n).selectedAnswers = st.selectedAnswers) ∧
    (∀ st : TestState, (handlePrevious st).selectedAnswers = st.selectedAnswers) := by
  refine ⟨?_, ?_, ?_, ?_⟩
  · intro st i score j h
    unfold handleAnswerSelect
    by_cases hs : st.isSubmitted
    · rw [if_pos hs]
    · rw [if_neg hs]
      exact lookupA_jsInsert_ne st.selectedAnswers i score j h
  · intro st i score h
    unfold handleAnswerSelect
    rw [if_neg (by simp [h])]
    exact lookupA_jsInsert_self st.selectedAnswers i score
  · intro st n
    unfold handleNext
    by_cases hc : st.currentQuestionIndex < n - 1
    · rw [if_pos hc]
    · rw [if_neg hc]
  · intro st
    unfold handlePrevious
    by_cases hc : st.currentQuestionIndex > 0
    · rw [if_pos hc]
    · rw [if_neg hc]

/-- Witness for C9: updating question 1 leaves question 0 intact, records
the new score, and navigation preserves the whole map. -/
theorem answer_capture_no_loss_witness :
    lookupA (handleAnswerSelect ⟨[(0, 2)], false, false, 0, none⟩ 1 5).selectedAnswers 0 =
      lookupA [(0, 2)] 0 ∧
    lookupA (handleAnswerSelect ⟨[(0, 2)], false, false, 0, none⟩ 1 5).selectedAnswers 1 =
      some 5 ∧
    (handleNext ⟨[(0, 2)], false, false, 0, none⟩ 2).selectedAnswers = [(0, 2)] :=
  ⟨answer_capture_no_loss.1 ⟨[(0, 2)], false, false, 0, none⟩ 1 5 0 (by decide),
   answer_capture_no_loss.2.1 ⟨[(0, 2)], false, false, 0, none⟩ 1 5 rfl,
   answer_capture_no_loss.2.2.1 ⟨[(0, 2)], false, false, 0, none⟩ 2⟩

/-- C10: once the submitted flag is set, selecting any answer option for any
question index and score leaves the whole state — in particular the
selected-answers map — unchanged. -/
theorem submitted_answer_select_noop (st : TestState) (i : Nat) (score : Int)
    (h : st.isSubmitted = true) : handleAnswerSelect st i score = st := by
  unfold handleAnswerSelect
  rw [if_pos (by simp [h])]

/-- Witness for C10 at a concrete submitted state. -/
theorem submitted_answer_select_noop_witness :
    handleAnswerSelect ⟨[(0, 3)], true, false, 0, none⟩ 0 5 =
      ⟨[(0, 3)], true, false, 0, none⟩ :=
  submitted_answer_select_noop ⟨[(0, 3)], true, false, 0, none⟩ 0 5 rfl

end Projekanda
